import Mathlib

set_option maxRecDepth 8192

/-
Verification of the guarded Text2SQL pipeline (src/main.py) against its
specification. The Python functions are shallowly embedded as executable
Lean definitions over `String` / `List Char`; Python regular expressions
are transcribed into a small regex AST with an executable
Brzozowski-derivative matcher and an inductive language semantics.

Modelling conventions (ASCII model of Python text functions):
- `str.upper` / `str.lower` act on the ASCII letters only (`pyUpperChar`,
  `pyLowerChar`); the inputs of interest are ASCII.
- regex `\s` and `\w` are the ASCII classes (`isPySpace`, `isWordChar`).
- `re.IGNORECASE` literals match either ASCII casing (`ciChar`).
- The LLM gateway and the SQLite connection are oracle parameters: an LLM
  completion is a `String` (or `Except` for a fallible call), query
  execution is a function `String → Except String (rows × description)`.
-/

namespace Text2SQLAgent

/-- Python regex `\s` / `str.isspace` on the ASCII whitespace characters:
space, tab, newline, carriage return, vertical tab, form feed. -/
def isPySpace (c : Char) : Bool :=
  c.toNat = 32 || c.toNat = 9 || c.toNat = 10 || c.toNat = 13 ||
    c.toNat = 11 || c.toNat = 12

/-- Python regex `\w` (ASCII): letters, digits and underscore. -/
def isWordChar (c : Char) : Bool :=
  (65 ≤ c.toNat && c.toNat ≤ 90) || (97 ≤ c.toNat && c.toNat ≤ 122) ||
    (48 ≤ c.toNat && c.toNat ≤ 57) || c.toNat = 95

/-- Python regex `\d` (ASCII digits). -/
def isDigitChar (c : Char) : Bool :=
  48 ≤ c.toNat && c.toNat ≤ 57

/-- Python `str.upper` on one character (ASCII letters a-z ↦ A-Z). -/
def pyUpperChar (c : Char) : Char :=
  if 97 ≤ c.toNat ∧ c.toNat ≤ 122 then Char.ofNat (c.toNat - 32) else c

/-- Python `str.lower` on one character (ASCII letters A-Z ↦ a-z). -/
def pyLowerChar (c : Char) : Char :=
  if 65 ≤ c.toNat ∧ c.toNat ≤ 90 then Char.ofNat (c.toNat + 32) else c

theorem toNat_charOfNat_of_lt {m : Nat} (h : m < 0xd800) :
    (Char.ofNat m).toNat = m := by
  have hv : m.isValidChar := Or.inl h
  rw [Char.ofNat, dif_pos hv]
  rfl

theorem toNat_pyUpperChar (c : Char) :
    (pyUpperChar c).toNat =
      if 97 ≤ c.toNat ∧ c.toNat ≤ 122 then c.toNat - 32 else c.toNat := by
  unfold pyUpperChar
  split
  · next h => exact toNat_charOfNat_of_lt (by omega)
  · rfl

/-- Uppercasing never produces an ASCII lowercase letter. -/
theorem pyUpperChar_not_lower (c : Char) :
    ¬ (97 ≤ (pyUpperChar c).toNat ∧ (pyUpperChar c).toNat ≤ 122) := by
  rw [toNat_pyUpperChar]
  split <;> omega

/-- Uppercasing preserves the whitespace class. -/
theorem isPySpace_pyUpperChar (c : Char) :
    isPySpace (pyUpperChar c) = isPySpace c := by
  simp only [isPySpace, toNat_pyUpperChar]
  split <;> [skip; rfl]
  next h =>
    have h1 : ∀ m : Nat, 97 ≤ m → m ≤ 122 →
        (decide (m - 32 = 32) || decide (m - 32 = 9) || decide (m - 32 = 10) ||
          decide (m - 32 = 13) || decide (m - 32 = 11) || decide (m - 32 = 12)) = false := by
      intro m hm1 hm2
      simp only [Bool.or_eq_false_iff, decide_eq_false_iff_not]
      omega
    have h2 : ∀ m : Nat, 97 ≤ m → m ≤ 122 →
        (decide (m = 32) || decide (m = 9) || decide (m = 10) ||
          decide (m = 13) || decide (m = 11) || decide (m = 12)) = false := by
      intro m hm1 hm2
      simp only [Bool.or_eq_false_iff, decide_eq_false_iff_not]
      omega
    rw [h1 c.toNat h.1 h.2, h2 c.toNat h.1 h.2]

/-- Python truthiness test `not s or not s.strip()`: empty or all whitespace. -/
def pyBlank (s : List Char) : Bool :=
  s.all isPySpace

/-- `p` is a prefix of `s` (Python `str.startswith`). -/
def listStartsWith : List Char → List Char → Bool
  | _, [] => true
  | [], _ :: _ => false
  | c :: s, p :: ps => c = p && listStartsWith s ps

/-- Python `str.strip()`: drop leading and trailing whitespace. -/
def pyStrip (s : List Char) : List Char :=
  ((s.dropWhile isPySpace).reverse.dropWhile isPySpace).reverse

/-- Python `str.rstrip(chars)` for a single strip character. -/
def pyRstripChar (ch : Char) (s : List Char) : List Char :=
  (s.reverse.dropWhile (fun c => c = ch)).reverse

/-- Python `str.replace(old, new)` with non-empty `old`, fuelled so that
the recursion is structural (and hence kernel-evaluable): scan left to
right, replacing each (non-overlapping) occurrence of `old` by `new`.
Each step consumes at least one character, so a fuel of the string's
length is never exhausted. -/
def pyReplaceAux (old new : List Char) : Nat → List Char → List Char
  | _, [] => []
  | 0, s => s
  | fuel + 1, c :: s =>
    if listStartsWith (c :: s) old then
      new ++ pyReplaceAux old new fuel (s.drop (old.length - 1))
    else
      c :: pyReplaceAux old new fuel s

/-- Python `str.replace(old, new)` with non-empty `old`. -/
def pyReplace (old new s : List Char) : List Char :=
  pyReplaceAux old new s.length s

/-- The first whitespace-delimited token of a string (what stands between
the leading whitespace and the next whitespace character). -/
def firstToken (s : List Char) : List Char :=
  (s.dropWhile isPySpace).takeWhile (fun c => !isPySpace c)

/-- Regular expressions over `Char`, with character classes given by a
Boolean predicate (regex classes such as `\w`, `\s` and `.`). -/
inductive Regex : Type where
  | fail : Regex
  | eps : Regex
  | cls (p : Char → Bool) : Regex
  | cat (r1 r2 : Regex) : Regex
  | alt (r1 r2 : Regex) : Regex
  | star (r : Regex) : Regex

/-- The language of a regular expression, as an inductive predicate. -/
inductive RegexLang : Regex → List Char → Prop where
  | eps : RegexLang .eps []
  | cls {p : Char → Bool} {c : Char} : p c = true → RegexLang (.cls p) [c]
  | cat {r1 r2 : Regex} {s1 s2 : List Char} :
      RegexLang r1 s1 → RegexLang r2 s2 → RegexLang (.cat r1 r2) (s1 ++ s2)
  | altL {r1 r2 : Regex} {s : List Char} :
      RegexLang r1 s → RegexLang (.alt r1 r2) s
  | altR {r1 r2 : Regex} {s : List Char} :
      RegexLang r2 s → RegexLang (.alt r1 r2) s
  | starNil {r : Regex} : RegexLang (.star r) []
  | starCons {r : Regex} {s1 s2 : List Char} :
      RegexLang r s1 → RegexLang (.star r) s2 → RegexLang (.star r) (s1 ++ s2)

/-- Does the regex accept the empty string? -/
def Regex.nullable : Regex → Bool
  | .fail => false
  | .eps => true
  | .cls _ => false
  | .cat r1 r2 => r1.nullable && r2.nullable
  | .alt r1 r2 => r1.nullable || r2.nullable
  | .star _ => true

/-- Concatenation with unit/zero simplification (keeps derivatives small). -/
def Regex.mkCat : Regex → Regex → Regex
  | .fail, _ => .fail
  | _, .fail => .fail
  | .eps, r => r
  | r, .eps => r
  | r1, r2 => .cat r1 r2

/-- Alternation with zero simplification (keeps derivatives small). -/
def Regex.mkAlt : Regex → Regex → Regex
  | .fail, r => r
  | r, .fail => r
  | r1, r2 => .alt r1 r2

/-- Brzozowski derivative of a regex by one character. -/
def Regex.deriv : Regex → Char → Regex
  | .fail, _ => .fail
  | .eps, _ => .fail
  | .cls p, c => if p c then .eps else .fail
  | .cat r1 r2, c =>
    if r1.nullable then
      .mkAlt (.mkCat (r1.deriv c) r2) (r2.deriv c)
    else
      .mkCat (r1.deriv c) r2
  | .alt r1 r2, c => .mkAlt (r1.deriv c) (r2.deriv c)
  | .star r, c => .mkCat (r.deriv c) (.star r)

/-- Whole-string matching by iterated derivatives (executable). -/
def Regex.rmatchList : Regex → List Char → Bool
  | r, [] => r.nullable
  | r, c :: s => Regex.rmatchList (r.deriv c) s

theorem regexLang_fail_elim {s : List Char} (h : RegexLang .fail s) : False := by
  cases h

theorem regexLang_cat_eps_right {r : Regex} {s : List Char}
    (h : RegexLang r s) : RegexLang (Regex.cat r .eps) s := by
  have h2 := RegexLang.cat h RegexLang.eps
  rwa [List.append_nil] at h2

theorem mkCat_sound {r1 r2 : Regex} {s : List Char}
    (h : RegexLang (Regex.mkCat r1 r2) s) : RegexLang (Regex.cat r1 r2) s := by
  cases r1 <;> cases r2 <;>
    first
      | exact h
      | exact (regexLang_fail_elim h).elim
      | exact RegexLang.cat RegexLang.eps h
      | exact regexLang_cat_eps_right h

theorem mkAlt_sound {r1 r2 : Regex} {s : List Char}
    (h : RegexLang (Regex.mkAlt r1 r2) s) : RegexLang (Regex.alt r1 r2) s := by
  cases r1 <;> cases r2 <;>
    first
      | exact h
      | exact RegexLang.altR h
      | exact RegexLang.altL h

theorem nullable_sound : ∀ {r : Regex}, r.nullable = true → RegexLang r [] := by
  intro r
  induction r with
  | fail => intro h; simp [Regex.nullable] at h
  | eps => intro _; exact RegexLang.eps
  | cls p => intro h; simp [Regex.nullable] at h
  | cat r1 r2 ih1 ih2 =>
    intro h
    simp only [Regex.nullable, Bool.and_eq_true] at h
    exact RegexLang.cat (ih1 h.1) (ih2 h.2)
  | alt r1 r2 ih1 ih2 =>
    intro h
    simp only [Regex.nullable, Bool.or_eq_true] at h
    cases h with
    | inl h => exact RegexLang.altL (ih1 h)
    | inr h => exact RegexLang.altR (ih2 h)
  | star r ih => intro _; exact RegexLang.starNil

theorem deriv_sound : ∀ {r : Regex} {c : Char} {s : List Char},
    RegexLang (r.deriv c) s → RegexLang r (c :: s) := by
  intro r
  induction r with
  | fail => intro c s h; exact (regexLang_fail_elim h).elim
  | eps => intro c s h; exact (regexLang_fail_elim h).elim
  | cls p =>
    intro c s h
    simp only [Regex.deriv] at h
    split at h
    · cases h
      next hp => exact RegexLang.cls hp
    · exact (regexLang_fail_elim h).elim
  | cat r1 r2 ih1 ih2 =>
    intro c s h
    simp only [Regex.deriv] at h
    split at h
    · next hn =>
      cases mkAlt_sound h with
      | altL h1 =>
        cases mkCat_sound h1 with
        | cat ha hb => exact RegexLang.cat (ih1 ha) hb
      | altR h2 =>
        exact RegexLang.cat (nullable_sound hn) (ih2 h2)
    · cases mkCat_sound h with
      | cat ha hb => exact RegexLang.cat (ih1 ha) hb
  | alt r1 r2 ih1 ih2 =>
    intro c s h
    simp only [Regex.deriv] at h
    cases mkAlt_sound h with
    | altL h1 => exact RegexLang.altL (ih1 h1)
    | altR h2 => exact RegexLang.altR (ih2 h2)
  | star r ih =>
    intro c s h
    simp only [Regex.deriv] at h
    cases mkCat_sound h with
    | cat ha hb => exact RegexLang.starCons (ih ha) hb

/-- Soundness of the derivative matcher with respect to the language. -/
theorem rmatchList_sound : ∀ {s : List Char} {r : Regex},
    Regex.rmatchList r s = true → RegexLang r s := by
  intro s
  induction s with
  | nil => intro r h; exact nullable_sound h
  | cons c s ih => intro r h; exact deriv_sound (ih h)

/-- A literal character. -/
def Regex.rchar (c : Char) : Regex :=
  .cls (fun d => d = c)

/-- A literal string. -/
def Regex.rstr : List Char → Regex
  | [] => .eps
  | c :: s => .cat (.rchar c) (Regex.rstr s)

/-- A literal character under `re.IGNORECASE` (ASCII case folding): the
character matches in either casing. -/
def Regex.ciChar (c : Char) : Regex :=
  .cls (fun d => d = pyUpperChar c || d = pyLowerChar c)

/-- A literal word under `re.IGNORECASE`. -/
def Regex.ciStr : List Char → Regex
  | [] => .eps
  | c :: s => .cat (.ciChar c) (Regex.ciStr s)

/-- Regex `+` (one or more). -/
def Regex.rplus (r : Regex) : Regex :=
  .cat r (.star r)

/-- Regex `?` (zero or one). -/
def Regex.ropt (r : Regex) : Regex :=
  .alt .eps r

/-- Any character at all (used to embed `re.search` as a whole-string match). -/
def Regex.anyChar : Regex :=
  .cls (fun _ => true)

/-- Python regex `.`: any character except a newline (no `re.DOTALL`). -/
def Regex.dot : Regex :=
  .cls (fun c => !(c = '\n'))

/-- The regex `\s` class. -/
def Regex.ws : Regex :=
  .cls isPySpace

/-- The regex `\w` class. -/
def Regex.word : Regex :=
  .cls isWordChar

/-- Python `re.search(p, s) is not None`: some substring of `s` is in the
language of `p`, i.e. the whole string matches `Σ* p Σ*`. -/
def reSearch (r : Regex) (s : List Char) : Bool :=
  Regex.rmatchList (.cat (.star .anyChar) (.cat r (.star .anyChar))) s

/-- Python `re.match(p, s) is not None` for an anchored pattern `^body$`
(every pattern in `safe_patterns` has this shape): the match must start at
position 0 and `$` holds at the end of the string or just before a final
newline, so the whole string matches `body (ε | \n)`. -/
def reMatchFull (r : Regex) (s : List Char) : Bool :=
  Regex.rmatchList (.cat r (.ropt (.rchar '\n'))) s

/-- Alternation of literal words under `re.IGNORECASE`, for Python patterns
of the shape `(?i)(w1|w2|…)`. -/
def Regex.ciAny : List (List Char) → Regex
  | [] => .fail
  | [w] => .ciStr w
  | w :: ws => .alt (.ciStr w) (Regex.ciAny ws)

/-- `IntentAnalyzer.sql_patterns` from src/main.py: the SQL-indicator
regexes (each an `(?i)` alternation of literal keywords), searched in the
prompt. -/
def sql_patterns : List Regex :=
  [ .ciAny ["show".data, "list".data, "find".data, "search".data, "sort".data],
    .ciAny ["products".data, "stock".data, "price".data],
    .ciAny ["how many".data, "total".data, "average".data],
    .ciAny ["sql".data, "query".data, "database".data],
    .ciAny ["highest".data, "lowest".data, "maximum".data, "minimum".data] ]

/-- `IntentAnalyzer.chat_patterns` from src/main.py: the chat-indicator
regexes. -/
def chat_patterns : List Regex :=
  [ .ciAny ["hello".data, "hi".data, "how are you".data],
    .ciAny ["chat".data, "talk".data, "conversation".data],
    .ciAny ["what are you doing".data, "who are you".data],
    .ciAny ["thank you".data, "thanks".data] ]

/-- `SQLAnalysisAgent.malicious_prompts_patterns` from src/main.py, each
paired with its Python source text (used in the rejection reason). -/
def malicious_prompts_patterns : List (String × Regex) :=
  [ ("(?i)(drop|delete|truncate|alter)\\s+table",
      .cat (.ciAny ["drop".data, "delete".data, "truncate".data, "alter".data])
        (.cat (.rplus .ws) (.ciStr ("table".data)))),
    ("(?i)system\\s+command",
      .cat (.ciStr ("system".data)) (.cat (.rplus .ws) (.ciStr ("command".data)))),
    ("(?i)(hack|exploit|attack)",
      .ciAny ["hack".data, "exploit".data, "attack".data]),
    ("(?i)(union\\s+select|join\\s+select)",
      .alt (.cat (.ciStr ("union".data)) (.cat (.rplus .ws) (.ciStr ("select".data))))
        (.cat (.ciStr ("join".data)) (.cat (.rplus .ws) (.ciStr ("select".data))))),
    ("(?i)(--|;|/\\*|\\*/)",
      .alt (.rstr ("--".data)) (.alt (.rchar ';') (.alt (.rstr ("/*".data)) (.rstr ("*/".data))))),
    ("(?i)(xp_cmdshell|exec\\s+sp)",
      .alt (.ciStr ("xp_cmdshell".data))
        (.cat (.ciStr ("exec".data)) (.cat (.rplus .ws) (.ciStr ("sp".data))))),
    ("(?i)(insert\\s+into|update\\s+set)",
      .alt (.cat (.ciStr ("insert".data)) (.cat (.rplus .ws) (.ciStr ("into".data))))
        (.cat (.ciStr ("update".data)) (.cat (.rplus .ws) (.ciStr ("set".data))))),
    ("(?i)password|username|credential",
      .ciAny ["password".data, "username".data, "credential".data]),
    ("(?i)grant|revoke|permission",
      .ciAny ["grant".data, "revoke".data, "permission".data]),
    ("(?i)backup|restore|dump",
      .ciAny ["backup".data, "restore".data, "dump".data]) ]

/-- `SQLAnalysisAgent.safe_prompt_patterns` from src/main.py. -/
def safe_prompt_patterns : List Regex :=
  [ .ciAny ["show".data, "list".data, "find".data, "search".data, "sort".data],
    .ciAny ["products".data, "stock".data, "price".data],
    .ciAny ["how many".data, "total".data, "average".data],
    .ciAny ["highest".data, "lowest".data, "maximum".data, "minimum".data] ]

/-- `SQLAnalysisAgent.dangerous_patterns` from src/main.py, each paired
with its Python source text. The source stores them in a Python `set`
(arbitrary iteration order); the theorems below depend only on whether
some pattern matches, never on which is found first. -/
def dangerous_patterns : List (String × Regex) :=
  [ (";.*", .cat (.rchar ';') (.star .dot)),
    ("--.*", .cat (.rstr ("--".data)) (.star .dot)),
    ("/\\*.*?\\*/", .cat (.rstr ("/*".data)) (.cat (.star .dot) (.rstr ("*/".data)))),
    ("xp_.*", .cat (.ciStr ("xp_".data)) (.star .dot)),
    ("exec.*", .cat (.ciStr ("exec".data)) (.star .dot)),
    ("UNION.*", .cat (.ciStr ("UNION".data)) (.star .dot)),
    ("DROP.*", .cat (.ciStr ("DROP".data)) (.star .dot)),
    ("DELETE.*", .cat (.ciStr ("DELETE".data)) (.star .dot)),
    ("UPDATE.*", .cat (.ciStr ("UPDATE".data)) (.star .dot)),
    ("ALTER.*", .cat (.ciStr ("ALTER".data)) (.star .dot)),
    ("TRUNCATE.*", .cat (.ciStr ("TRUNCATE".data)) (.star .dot)),
    ("INSERT.*", .cat (.ciStr ("INSERT".data)) (.star .dot)),
    ("GRANT.*", .cat (.ciStr ("GRANT".data)) (.star .dot)),
    ("REVOKE.*", .cat (.ciStr ("REVOKE".data)) (.star .dot)),
    ("SYSTEM.*", .cat (.ciStr ("SYSTEM".data)) (.star .dot)),
    ("INTO\\s+(?:OUTFILE|DUMPFILE).*",
      .cat (.ciStr ("INTO".data))
        (.cat (.rplus .ws)
          (.cat (.alt (.ciStr ("OUTFILE".data)) (.ciStr ("DUMPFILE".data))) (.star .dot)))) ]

/-- The class `[\w\s,.()*]` of the plain-SELECT safe pattern. -/
def isSelectBodyChar (c : Char) : Bool :=
  isWordChar c || isPySpace c || c = ',' || c = '.' || c = '(' || c = ')' || c = '*'

/-- The class `[\w\s><=]` of the WHERE clause in SELECT/COUNT/AVG. -/
def isWhereChar (c : Char) : Bool :=
  isWordChar c || isPySpace c || c = '>' || c = '<' || c = '='

/-- The class `[\w\s><=\'\"]` of the WHERE clause in MAX/MIN/SUM. -/
def isWhereQuotedChar (c : Char) : Bool :=
  isWhereChar c || c = '\'' || c = '"'

/-- The class `[\w\s,]` of the ORDER BY clause. -/
def isOrderByChar (c : Char) : Bool :=
  isWordChar c || isPySpace c || c = ','

/-- `(?:\s+WHERE\s+[…]+)?` body, parameterised by the character class. -/
def whereClause (cl : Char → Bool) : Regex :=
  .cat (.rplus .ws) (.cat (.ciStr ("WHERE".data)) (.cat (.rplus .ws) (.rplus (.cls cl))))

/-- `(?:\s+ORDER\s+BY\s+[\w\s,]+)?` body. -/
def orderByClause : Regex :=
  .cat (.rplus .ws)
    (.cat (.ciStr ("ORDER".data))
      (.cat (.rplus .ws)
        (.cat (.ciStr ("BY".data)) (.cat (.rplus .ws) (.rplus (.cls isOrderByChar))))))

/-- `(?:\s+LIMIT\s+\d+)?` body. -/
def limitClause : Regex :=
  .cat (.rplus .ws) (.cat (.ciStr ("LIMIT".data)) (.cat (.rplus .ws) (.rplus (.cls isDigitChar))))

/-- The `'SELECT'` safe pattern of src/main.py:
`^SELECT\s+(?:(?:[\w\s,.()*]|\s)+)\s+FROM\s+[\w]+(?:\s+WHERE\s+[\w\s><=]+)?(?:\s+ORDER\s+BY\s+[\w\s,]+)?(?:\s+LIMIT\s+\d+)?$`. -/
def selectPattern : Regex :=
  .cat (.ciStr ("SELECT".data))
    (.cat (.rplus .ws)
      (.cat (.rplus (.alt (.cls isSelectBodyChar) .ws))
        (.cat (.rplus .ws)
          (.cat (.ciStr ("FROM".data))
            (.cat (.rplus .ws)
              (.cat (.rplus .word)
                (.cat (.ropt (whereClause isWhereChar))
                  (.cat (.ropt orderByClause) (.ropt limitClause)))))))))

/-- The shared shape of the aggregate safe patterns of src/main.py:
`^SELECT\s+FN\s*\(\s*ARG\s*\)\s+FROM\s+[\w]+(?:\s+WHERE\s+[…]+)?$`. -/
def aggPattern (fnName : List Char) (arg : Regex) (whereCl : Char → Bool) : Regex :=
  .cat (.ciStr ("SELECT".data))
    (.cat (.rplus .ws)
      (.cat (.ciStr fnName)
        (.cat (.star .ws)
          (.cat (.rchar '(')
            (.cat (.star .ws)
              (.cat arg
                (.cat (.star .ws)
                  (.cat (.rchar ')')
                    (.cat (.rplus .ws)
                      (.cat (.ciStr ("FROM".data))
                        (.cat (.rplus .ws)
                          (.cat (.rplus .word) (.ropt (whereClause whereCl))))))))))))))

/-- `SQLAnalysisAgent.safe_patterns` from src/main.py, in the dict's
insertion order: SELECT, COUNT, AVG, MAX, MIN, SUM. -/
def safe_patterns : List Regex :=
  [ selectPattern,
    aggPattern ("COUNT".data) (.rchar '*') isWhereChar,
    aggPattern ("AVG".data) (.rplus .word) isWhereChar,
    aggPattern ("MAX".data) (.rplus .word) isWhereQuotedChar,
    aggPattern ("MIN".data) (.rplus .word) isWhereQuotedChar,
    aggPattern ("SUM".data) (.rplus .word) isWhereQuotedChar ]

/-- One character comparison of SQLite `LIKE` (ASCII case-insensitive). -/
def sqlLikeChar (p c : Char) : Bool :=
  pyUpperChar p = pyUpperChar c

/-- SQLite `LIKE` matching, fuelled so that the recursion is structural:
`%` matches any run of characters, `_` any one character, anything else
itself (ASCII case-insensitively). Each step shortens the pattern or the
text, so a fuel of their combined length is never exhausted. -/
def sqlLikeAux : Nat → List Char → List Char → Bool
  | _, [], [] => true
  | _, [], _ :: _ => false
  | 0, _ :: _, _ => false
  | fuel + 1, '%' :: ps, [] => sqlLikeAux fuel ps []
  | fuel + 1, '%' :: ps, c :: ts =>
    sqlLikeAux fuel ps (c :: ts) || sqlLikeAux fuel ('%' :: ps) ts
  | _ + 1, '_' :: _, [] => false
  | fuel + 1, '_' :: ps, _ :: ts => sqlLikeAux fuel ps ts
  | _ + 1, _ :: _, [] => false
  | fuel + 1, p :: ps, c :: ts => sqlLikeChar p c && sqlLikeAux fuel ps ts

/-- SQLite `text LIKE pattern`. -/
def sqlLike (pattern text : String) : Bool :=
  sqlLikeAux (pattern.length + text.length) pattern.data text.data

/-- One row of the `query_history` table.
Modelled from the spec: the schema `query_history(natural_query,
generated_sql, execution_result, created_at)` is created outside the
repository (src/main.py only reads from and inserts into it);
`execution_result` is nullable, and the list keeps insertion order, so
`ORDER BY created_at DESC LIMIT 1` returns the last matching row. -/
structure QueryHistoryRecord where
  natural_query : String
  generated_sql : String
  execution_result : Option String
  deriving DecidableEq

/-- The WHERE clause of the `learn_from_history` lookup:
`natural_query LIKE '%query%' AND execution_result NOT LIKE '%error%'`.
In SQL, `NULL NOT LIKE p` is NULL, which the WHERE clause rejects, so a
row whose `execution_result` was never set cannot match. -/
def historyRowMatches (natural_query : String) (r : QueryHistoryRecord) : Bool :=
  sqlLike ("%" ++ natural_query ++ "%") r.natural_query &&
    match r.execution_result with
    | some res => !sqlLike ("%error%") res
    | none => false

/-- `SQLAnalysisAgent.learn_from_history` (the spec's `find_similar`):
most recent matching row's `generated_sql`, or `None`. -/
def learn_from_history (history : List QueryHistoryRecord)
    (natural_query : String) : Option String :=
  (history.reverse.find? (historyRowMatches natural_query)).map
    (fun r => r.generated_sql)

/-- One row of the `error_stats` table. -/
structure ErrorStatsRecord where
  error_type : String
  query : String
  message : String
  deriving DecidableEq

/-- `SQLAnalysisAgent.log_error(error_msg, query)`: the `error_stats` row
inserted, `('SECURITY_VIOLATION', query, error_msg)`. -/
def log_error (error_msg : String) (query : String) : ErrorStatsRecord :=
  ⟨"SECURITY_VIOLATION", query, error_msg⟩

/-- Python `f"{x:15}"` for a string: pad on the right with spaces to a
minimum width of 15. -/
def pyPad15 (s : String) : String :=
  s ++ String.mk (List.replicate (15 - s.length) ' ')

/-- The `"-" * 80` separator rule of `format_results`. -/
def dashRule : String :=
  String.mk (List.replicate 80 '-')

/-- `SQLAnalysisAgent.format_results(results, description)`. A fetched row
is a list of already-rendered items (`str(item)`); `description` is
modelled as the list of column names (the `desc[0]` of each
cursor-description tuple). -/
def format_results (results : List (List String)) (description : List String) : String :=
  if results.isEmpty then "No results found"
  else
    "\nQuery Results:\n" ++ dashRule ++ "\n" ++
      String.intercalate (" | ") (description.map pyPad15) ++ "\n" ++
      dashRule ++ "\n" ++
      String.join (results.map
        (fun row => String.intercalate (" | ") (row.map pyPad15) ++ "\n")) ++
      dashRule ++ "\n"

/-- The `SQLExecutionEvent` workflow event. `execution_time` is wall-clock
seconds in the source (a float); timing itself is not modelled, so the
elapsed value is an abstract `Nat` supplied by the execution oracle on
success, and `0` on failure exactly as the source assigns it. -/
structure SQLExecutionEvent where
  execution_result : String
  execution_time : Nat
  row_count : Nat
  deriving DecidableEq

/-- `SQLAnalysisAgent.execute_sql`. The SQLite cursor is the oracle
`run_query`: success yields the fetched rows and the cursor description,
failure the exception text `str(e)`. Returns the produced event together
with the `error_stats` rows written. The Python body catches every
exception, so the step is a total function: nothing propagates. -/
def execute_sql (run_query : String → Except String (List (List String) × List String))
    (elapsed : Nat) (sql_query : String) : SQLExecutionEvent × List ErrorStatsRecord :=
  match run_query sql_query with
  | .ok (result, description) =>
    (⟨format_results result description, elapsed, result.length⟩, [])
  | .error e =>
    let error_message := ("Error in executing SQL query: ") ++ e
    (⟨error_message, 0, 0⟩, [log_error e error_message])

/-- `SQLAnalysisAgent.sanitize_input` (the spec's `sanitize`; the `None`
branch of the source only concerns a `None` argument, which a `str` input
never is): `value.replace("'", "''").replace(";", "").replace("--", "")`. -/
def sanitize_input (value : String) : String :=
  String.mk (pyReplace ("--".data) []
    (pyReplace (";".data) []
      (pyReplace ("'".data) ("''".data) value.data)))

/-- `SQLAnalysisAgent.analyze_prompt_safety` (the spec's `check_prompt`). -/
def analyze_prompt_safety (prompt : String) : Bool × String :=
  if pyBlank prompt.data then (false, "Empty query")
  else
    match malicious_prompts_patterns.find? (fun pr => reSearch pr.2 prompt.data) with
    | some pr => (false, ("Malicious pattern detected: ") ++ pr.1)
    | none =>
      if !(safe_prompt_patterns.any (fun r => reSearch r prompt.data)) then
        (false, "Query does not contain safe patterns")
      else if 500 < prompt.length then
        (false, "Query too long")
      else
        (true, "Query is safe")

/-- `SQLAnalysisAgent.allowed_tables` (a one-element Python set). -/
def allowed_tables : List (List Char) :=
  ["products".data]

/-- One attempt of `re.findall(r'FROM\s+(\w+)', u, re.IGNORECASE)` at the
current position: if the text starts with `FROM` (case-insensitively)
followed by at least one whitespace character and then at least one word
character, return the captured greedy `\w+` run and the rest of the text
after the match. -/
def fromMatchAt (s : List Char) : Option (List Char × List Char) :=
  if ((s.take 4).map pyUpperChar = ("FROM".data)) ∧ 4 ≤ s.length then
    let afterFrom := s.drop 4
    let wsRun := afterFrom.takeWhile isPySpace
    let afterWs := afterFrom.dropWhile isPySpace
    let tableName := afterWs.takeWhile isWordChar
    if wsRun ≠ [] ∧ tableName ≠ [] then some (tableName, afterWs.drop tableName.length)
    else none
  else none

/-- `re.findall(r'FROM\s+(\w+)', …, re.IGNORECASE)`, fuelled so that the
recursion is structural: scan left to right, collecting each
non-overlapping match's captured table name and resuming after the
matched span. Each step consumes at least one character, so a fuel of the
text's length is never exhausted. -/
def findFromTablesAux : Nat → List Char → List (List Char)
  | _, [] => []
  | 0, _ :: _ => []
  | fuel + 1, c :: s =>
    match fromMatchAt (c :: s) with
    | some (t, rem) => t :: findFromTablesAux fuel rem
    | none => findFromTablesAux fuel s

/-- All table names `re.findall(r'FROM\s+(\w+)', …, re.IGNORECASE)`
extracts from the text. -/
def find_from_tables (s : List Char) : List (List Char) :=
  findFromTablesAux s.length s

/-- `SQLAnalysisAgent.validate_sql_safety` (the spec's `check_sql`): empty
test on the original string, every other test on the uppercased copy. The
dangerous patterns live in a Python set, so which pattern a dangerous
statement is reported for depends on the set's iteration order; the
Boolean verdict does not, and no theorem below depends on that reason. -/
def validate_sql_safety (sql_query : String) : Bool × String :=
  if pyBlank sql_query.data then (false, "Empty query")
  else
    let u := sql_query.data.map pyUpperChar
    if !listStartsWith (pyStrip u) ("SELECT".data) then
      (false, "Only SELECT queries are allowed")
    else
      match dangerous_patterns.find? (fun pr => reSearch pr.2 u) with
      | some pr => (false, ("Dangerous pattern detected: ") ++ pr.1)
      | none =>
        match (find_from_tables u).find?
            (fun t => !allowed_tables.contains (t.map pyLowerChar)) with
        | some t => (false, ("Accessing unauthorized table: ") ++ String.mk t)
        | none =>
          if safe_patterns.any (fun r => reMatchFull r u) then (true, "Safe query")
          else (false, "Unsuitable query format")

/-- The post-processing of the raw completion in `generate_sql`:
`str(response).strip().replace('```sql', '').replace('```', '').strip()`
followed by `.rstrip(';')`. -/
def postprocess_response (response : String) : String :=
  String.mk (pyRstripChar ';'
    (pyStrip (pyReplace ("```".data) []
      (pyReplace ("```sql".data) [] (pyStrip response.data)))))

/-- The outcome of the `generate_sql` workflow step: the produced
`SQLGenerationEvent.sql_query` and the `query_history` table after the
step. -/
structure SQLGenerationResult where
  sql_query : String
  history : List QueryHistoryRecord
  deriving DecidableEq

/-- The fresh-synthesis tail of `generate_sql`: post-process the gateway
completion, validate it, return the security-breach sentinel statement on
rejection, otherwise record `(natural_query, generated_sql)` in the
history — leaving `execution_result` NULL — and return the statement. -/
def generate_sql_fresh (llm_response : String)
    (history : List QueryHistoryRecord) (query : String) : SQLGenerationResult :=
  let sql_query := postprocess_response llm_response
  if !(validate_sql_safety sql_query).1 then
    ⟨"SELECT 'Security breach detected' as message", history⟩
  else
    ⟨sql_query, history ++ [⟨query, sql_query, none⟩]⟩

/-- `SQLAnalysisAgent.generate_sql`. Oracles: `llm_response` is the raw
completion the Language-Model Gateway returns for this request's
generation prompt (the prompt text, including the schema rows it embeds,
only feeds the gateway and is not reconstructed); `history` is the current
`query_history` table. -/
def generate_sql (llm_response : String) (history : List QueryHistoryRecord)
    (prompt : String) : SQLGenerationResult :=
  if !(analyze_prompt_safety prompt).1 then
    ⟨"SELECT 'Failed security check' as message", history⟩
  else
    let query := sanitize_input prompt
    match learn_from_history history query with
    | some l =>
      if (validate_sql_safety l).1 then ⟨l, history⟩
      else generate_sql_fresh llm_response history query
    | none => generate_sql_fresh llm_response history query

/-- The statements the Execution Sandbox runs for one request: the
workflow machinery always dispatches the `SQLGenerationEvent` produced by
`generate_sql` to the `execute_sql` step, which executes its `sql_query`
against the store unconditionally (src/main.py line 392). -/
def pipeline_sandbox_statements (llm_response : String)
    (history : List QueryHistoryRecord) (prompt : String) : List String :=
  [(generate_sql llm_response history prompt).sql_query]

/-- The numeric renderings inside `create_feedback_prompt` (`:.4f` float
formatting, abstracted over the `Nat` clock model). -/
def showExecTime (t : Nat) : String :=
  toString t

/-- `SQLAnalysisAgent.create_feedback_prompt`. -/
def create_feedback_prompt (ev : SQLExecutionEvent) : String :=
  "\n        Please briefly evaluate the result of this query:\n        \n        Query Metrics:\n        - Execution Time: " ++
    showExecTime ev.execution_time ++
    " seconds\n        - Rows Returned: " ++ toString ev.row_count ++
    "\n        \n        Query Result:\n        " ++ ev.execution_result ++
    "\n        \n        Please provide a SHORT and CLEAR evaluation based on the following criteria:\n        1. Was the query successful? (Yes/No)\n        2. Is the performance adequate? (Yes/No)\n        3. If any, what are the improvement suggestions?\n        "

/-- `SQLAnalysisAgent.collect_feedback`: awaits the gateway critique — the
step has no exception handler, so a failing gateway call propagates out of
it (modelled by `Except`) — prints the feedback, and returns the execution
result text unchanged as the workflow's final result. -/
def collect_feedback (llm : String → Except String String)
    (ev : SQLExecutionEvent) : Except String String :=
  match llm (create_feedback_prompt ev) with
  | .error e => .error e
  | .ok _feedback => .ok ev.execution_result

/-- The outcome of `IntentAnalyzer.analyze_intent`: the intent label, the
rationale message, and whether the gateway fallback was consulted. -/
structure IntentResult where
  intent : String
  message : String
  used_llm : Bool
  deriving DecidableEq

/-- `IntentAnalyzer.analyze_intent`. `llm_response` is the completion the
gateway would return for the forced-choice analysis prompt; it is only
consulted when no fast-path pattern decides. -/
def analyze_intent (llm_response : String) (prompt : String) : IntentResult :=
  if pyBlank prompt.data then ⟨"chat", "Empty prompt detected", false⟩
  else if sql_patterns.any (fun r => reSearch r prompt.data) then
    ⟨"sql", "SQL query detected", false⟩
  else if chat_patterns.any (fun r => reSearch r prompt.data) then
    ⟨"chat", "Chat intent detected", false⟩
  else
    let intent := (pyStrip llm_response.data).map pyUpperChar
    if intent = ("SQL".data) then ⟨"sql", "LLM analysis, SQL query detected", true⟩
    else ⟨"chat", "LLM analysis: chat intent detected", true⟩

theorem historyRowMatches_none {q : String} {r : QueryHistoryRecord}
    (h : r.execution_result = none) : historyRowMatches q r = false := by
  unfold historyRowMatches
  rw [h]
  exact Bool.and_false _

theorem learn_from_history_append_null (history : List QueryHistoryRecord)
    (r : QueryHistoryRecord) (hr : r.execution_result = none) (q : String) :
    learn_from_history (history ++ [r]) q = learn_from_history history q := by
  unfold learn_from_history
  rw [List.reverse_append, List.reverse_singleton, List.singleton_append,
    List.find?_cons_of_neg _ (by rw [historyRowMatches_none hr]; exact Bool.false_ne_true)]

/-- C5 — confirmed. The generation step's INSERT names only
`(natural_query, generated_sql)`, so the row it appends has a NULL
`execution_result`; the lookup's WHERE clause demands
`execution_result NOT LIKE '%error%'`, which NULL fails; hence whatever a
request adds to the history, every similarity lookup returns exactly what
it returned on the history before the request — a row written by the
pipeline itself is never returned. -/
theorem pipeline_history_rows_never_returned (llm_response : String)
    (history : List QueryHistoryRecord) (prompt q : String) :
    learn_from_history (generate_sql llm_response history prompt).history q =
      learn_from_history history q := by
  have hfresh : ∀ query, learn_from_history
      (generate_sql_fresh llm_response history query).history q =
      learn_from_history history q := by
    intro query
    unfold generate_sql_fresh
    dsimp only
    split
    · rfl
    · exact learn_from_history_append_null history _ rfl q
  unfold generate_sql
  split
  · rfl
  · dsimp only
    split
    · split
      · rfl
      · exact hfresh _
    · exact hfresh _

/-- C4 — confirmed. The history store hands back a recorded string
unchanged, and `check_sql` is a pure function of its input: if every
statement in the store was accepted when recorded (in particular the newly
recorded one), then any statement `find_similar` returns re-validates to
accepted. -/
theorem check_sql_roundtrip_idempotent (history : List QueryHistoryRecord)
    (q0 sql : String) (er : Option String) (q s : String)
    (hinv : ∀ r ∈ history, (validate_sql_safety r.generated_sql).1 = true)
    (hacc : (validate_sql_safety sql).1 = true)
    (hfind : learn_from_history (history ++ [⟨q0, sql, er⟩]) q = some s) :
    (validate_sql_safety s).1 = true := by
  unfold learn_from_history at hfind
  rw [Option.map_eq_some'] at hfind
  obtain ⟨r, hfr, hs⟩ := hfind
  have hmem := List.mem_of_find?_eq_some hfr
  rw [List.mem_reverse, List.mem_append] at hmem
  rcases hmem with hmem | hmem
  · exact hs ▸ hinv r hmem
  · have : r = ⟨q0, sql, er⟩ := by simpa using hmem
    subst this
    exact hs ▸ hacc

theorem check_sql_roundtrip_idempotent_witness :
    learn_from_history [⟨"show price", "SELECT NAME FROM PRODUCTS", some "ok"⟩]
        ("price") = some ("SELECT NAME FROM PRODUCTS") ∧
      (validate_sql_safety ("SELECT NAME FROM PRODUCTS")).1 = true := by
  refine ⟨by decide, ?_⟩
  exact check_sql_roundtrip_idempotent [] "show price" "SELECT NAME FROM PRODUCTS"
    (some "ok") "price" "SELECT NAME FROM PRODUCTS"
    (by intro r hr; cases hr) (by decide) (by decide)

/-- C6 — confirmed. When execution raises, `execute_sql` returns a
well-formed event embedding the exception text with zero time and zero
rows, writes one `error_stats` record, and (being a total function of the
oracle's answer) propagates nothing. -/
theorem execute_sql_error_path
    (run_query : String → Except String (List (List String) × List String))
    (elapsed : Nat) (sql e : String) (h : run_query sql = .error e) :
    execute_sql run_query elapsed sql =
      (⟨("Error in executing SQL query: ") ++ e, 0, 0⟩,
        [⟨"SECURITY_VIOLATION", ("Error in executing SQL query: ") ++ e, e⟩]) := by
  unfold execute_sql
  rw [h]
  rfl

theorem execute_sql_error_path_witness :
    execute_sql (fun _ => .error ("no such table: users")) 7 ("SELECT 1") =
      (⟨"Error in executing SQL query: no such table: users", 0, 0⟩,
        [⟨"SECURITY_VIOLATION", "Error in executing SQL query: no such table: users",
          "no such table: users"⟩]) :=
  execute_sql_error_path (fun _ => .error ("no such table: users")) 7 ("SELECT 1")
    ("no such table: users") rfl

/-- C8 — confirmed. A non-blank prompt matching some chat-indicator
pattern and no SQL-indicator pattern is classified CHAT by the fast path,
for every possible gateway completion and without consulting the gateway
(`used_llm = false`). -/
theorem intent_chat_fast_path (prompt : String)
    (hne : pyBlank prompt.data = false)
    (hchat : chat_patterns.any (fun r => reSearch r prompt.data) = true)
    (hsql : sql_patterns.any (fun r => reSearch r prompt.data) = false) :
    ∀ llm_response, analyze_intent llm_response prompt =
      ⟨"chat", "Chat intent detected", false⟩ := by
  intro llm_response
  unfold analyze_intent
  rw [hne, hsql, hchat]
  rfl

theorem intent_chat_fast_path_witness :
    analyze_intent ("SQL") ("hello") = ⟨"chat", "Chat intent detected", false⟩ :=
  intent_chat_fast_path "hello" (by decide) (by decide) (by decide) "SQL"

/-- C9 — counterexample to the claim as stated: `collect_feedback` has no
exception handler, so a failing gateway critique call propagates out of
the step instead of being swallowed — the pipeline does not return the
execution text on that path. -/
theorem feedback_failure_not_swallowed :
    collect_feedback (fun _ => .error ("gateway timeout")) ⟨"RESULT", 1, 1⟩ =
        .error ("gateway timeout") ∧
      (Except.error ("gateway timeout") : Except String String) ≠ .ok ("RESULT") :=
  ⟨rfl, fun h => Except.noConfusion h⟩

/-- C9 amended: when the feedback gateway call succeeds, the terminal
result is the execution outcome's text unchanged (the critique is never
concatenated into it); when the call fails, the failure propagates out of
the step rather than being swallowed. -/
theorem feedback_success_returns_result_unchanged
    (llm : String → Except String String) (ev : SQLExecutionEvent) :
    (∀ f, llm (create_feedback_prompt ev) = .ok f →
        collect_feedback llm ev = .ok ev.execution_result) ∧
      (∀ e, llm (create_feedback_prompt ev) = .error e →
        collect_feedback llm ev = .error e) := by
  constructor <;> intro x h <;> unfold collect_feedback <;> rw [h]

theorem feedback_success_returns_result_unchanged_witness :
    collect_feedback (fun _ => .ok ("looks fine")) ⟨"RESULT", 1, 1⟩ = .ok ("RESULT") ∧
      collect_feedback (fun _ => .error ("down")) ⟨"RESULT", 1, 1⟩ = .error ("down") :=
  ⟨(feedback_success_returns_result_unchanged (fun _ => .ok ("looks fine"))
      ⟨"RESULT", 1, 1⟩).1 ("looks fine") rfl,
    (feedback_success_returns_result_unchanged (fun _ => .error ("down"))
      ⟨"RESULT", 1, 1⟩).2 ("down") rfl⟩

/-- C1 — counterexample to the claim as stated. On a request whose prompt
fails the pre-generation safety check, `generate_sql` still emits an
`SQLGenerationEvent` (carrying the fixed rejection statement), and the
workflow dispatches every such event to `execute_sql`, which runs it
against the store: the Execution Sandbox does run, and the list of
statements it executes is not empty. -/
theorem rejected_prompt_still_executes :
    (analyze_prompt_safety ("hack")).1 = false ∧
      pipeline_sandbox_statements ("x") [] ("hack") ≠ [] :=
  ⟨by decide, by decide⟩

/-- C1 amended: on a prompt-rejected request the Execution Sandbox runs
exactly one statement, the fixed literal `SELECT 'Failed security check'
as message`; on a request whose (historical and freshly generated)
candidates fail `check_sql` it runs exactly the fixed literal
`SELECT 'Security breach detected' as message`. In both cases the
rejected user-derived candidate itself never reaches the sandbox, and the
pipeline terminates with the outcome of executing the sentinel. -/
theorem rejected_paths_execute_only_sentinel (llm_response prompt : String)
    (history : List QueryHistoryRecord) :
    ((analyze_prompt_safety prompt).1 = false →
      pipeline_sandbox_statements llm_response history prompt =
        ["SELECT 'Failed security check' as message"]) ∧
      ((analyze_prompt_safety prompt).1 = true →
        (∀ l, learn_from_history history (sanitize_input prompt) = some l →
          (validate_sql_safety l).1 = false) →
        (validate_sql_safety (postprocess_response llm_response)).1 = false →
        pipeline_sandbox_statements llm_response history prompt =
          ["SELECT 'Security breach detected' as message"]) := by
  constructor
  · intro h
    unfold pipeline_sandbox_statements generate_sql
    rw [h]
    rfl
  · intro h hlearn hval
    have hfresh : (generate_sql_fresh llm_response history (sanitize_input prompt)).sql_query =
        "SELECT 'Security breach detected' as message" := by
      unfold generate_sql_fresh
      simp [hval]
    unfold pipeline_sandbox_statements generate_sql
    cases heq : learn_from_history history (sanitize_input prompt) with
    | none => simp [h, heq, hfresh]
    | some l => simp [h, heq, hlearn l heq, hfresh]

theorem rejected_paths_execute_only_sentinel_witness :
    pipeline_sandbox_statements ("x") [] ("hack") =
        ["SELECT 'Failed security check' as message"] ∧
      pipeline_sandbox_statements ("DROP TABLE products") [] ("show price") =
        ["SELECT 'Security breach detected' as message"] :=
  ⟨(rejected_paths_execute_only_sentinel "x" "hack" []).1 (by decide),
    (rejected_paths_execute_only_sentinel "DROP TABLE products" "show price" []).2
      (by decide) (fun l h => Option.noConfusion h) (by decide)⟩

theorem find?_eq_none_of_all_not {α : Type} (p : α → Bool) (l : List α)
    (h : l.all (fun x => !p x) = true) : l.find? p = none := by
  rw [List.find?_eq_none]
  intro x hx
  have hx2 := List.all_eq_true.mp h x hx
  simpa using hx2

/-- C3 — counterexample to the claim as stated. `DELETE FROM USERS`
extracts the unauthorized table `USERS` after its FROM token, yet
`check_sql` reports the earlier first-token check's reason, not the
"unauthorized table" reason: the earlier checks can pre-empt the table
check's reason. -/
theorem unauthorized_table_reason_preempted :
    (find_from_tables (("DELETE FROM USERS").data.map pyUpperChar)).find?
          (fun t => !allowed_tables.contains (t.map pyLowerChar)) =
        some ("USERS".data) ∧
      validate_sql_safety ("DELETE FROM USERS") =
        (false, "Only SELECT queries are allowed") ∧
      ("Only SELECT queries are allowed" : String) ≠
        ("Accessing unauthorized table: USERS") :=
  ⟨by decide, by decide, by decide⟩

/-- C3 amended: for a statement that passes the checks preceding the
table check (non-blank, stripped uppercase starts with SELECT, no
dangerous pattern matches), if some table name extracted after a FROM
token is outside the allow-listed set, `check_sql` rejects with the
"unauthorized table" reason naming the first such extracted table. -/
theorem unauthorized_table_rejected (sql_query : String) (t : List Char)
    (hnb : pyBlank sql_query.data = false)
    (hsel : listStartsWith (pyStrip (sql_query.data.map pyUpperChar)) ("SELECT".data) = true)
    (hdang : dangerous_patterns.all
      (fun pr => !reSearch pr.2 (sql_query.data.map pyUpperChar)) = true)
    (hfind : (find_from_tables (sql_query.data.map pyUpperChar)).find?
      (fun t => !allowed_tables.contains (t.map pyLowerChar)) = some t) :
    validate_sql_safety sql_query =
      (false, ("Accessing unauthorized table: ") ++ String.mk t) := by
  unfold validate_sql_safety
  rw [hnb]
  dsimp only
  rw [hsel, find?_eq_none_of_all_not _ _ hdang, hfind]
  rfl

theorem unauthorized_table_rejected_witness :
    validate_sql_safety ("SELECT * FROM users") =
      (false, "Accessing unauthorized table: USERS") :=
  unauthorized_table_rejected "SELECT * FROM users" ("USERS".data)
    (by decide) (by decide) (by decide) (by decide)

/-- C7 — confirmed. For a non-blank prompt matching no malicious pattern
and at least one safe-intent pattern, `check_prompt` accepts exactly when
the prompt's length is at most 500 characters. -/
theorem prompt_length_boundary (prompt : String)
    (hnb : pyBlank prompt.data = false)
    (hmal : malicious_prompts_patterns.all
      (fun pr => !reSearch pr.2 prompt.data) = true)
    (hsafe : safe_prompt_patterns.any (fun r => reSearch r prompt.data) = true) :
    (analyze_prompt_safety prompt).1 = true ↔ prompt.length ≤ 500 := by
  unfold analyze_prompt_safety
  rw [hnb, find?_eq_none_of_all_not _ _ hmal, hsafe]
  by_cases h : 500 < prompt.length
  · simp [h]
  · simp [h]
    omega

/-- The boundary prompt of exactly 500 characters (495 filler characters
and the safe keyword `price`). -/
def promptOf500 : String :=
  String.mk (List.replicate 495 'a' ++ ("price".data))

/-- The boundary prompt of exactly 501 characters. -/
def promptOf501 : String :=
  String.mk (List.replicate 496 'a' ++ ("price".data))

theorem prompt_length_boundary_witness :
    (analyze_prompt_safety promptOf500).1 = true ∧
      (analyze_prompt_safety promptOf501).1 = false :=
  ⟨(prompt_length_boundary promptOf500 (by decide) (by decide) (by decide)).mpr
      (by decide),
    Bool.eq_false_iff.mpr (fun hc =>
      absurd ((prompt_length_boundary promptOf501 (by decide) (by decide)
        (by decide)).mp hc) (by decide))⟩

theorem validate_true_any_safe {sql_query : String}
    (h : (validate_sql_safety sql_query).1 = true) :
    safe_patterns.any (fun r => reMatchFull r (sql_query.data.map pyUpperChar)) = true := by
  unfold validate_sql_safety at h
  split at h
  · simp at h
  · dsimp only at h
    split at h
    · simp at h
    · split at h
      · simp at h
      · split at h
        · simp at h
        · split at h
          · next hcond => exact hcond
          · simp at h

theorem safe_patterns_shape :
    ∀ r ∈ safe_patterns, ∃ tail, r =
      Regex.cat (.ciStr ("SELECT".data)) (.cat (.rplus .ws) tail) := by
  intro r hr
  simp only [safe_patterns, List.mem_cons, List.not_mem_nil, or_false] at hr
  rcases hr with rfl | rfl | rfl | rfl | rfl | rfl
  · exact ⟨_, rfl⟩
  · exact ⟨_, rfl⟩
  · exact ⟨_, rfl⟩
  · exact ⟨_, rfl⟩
  · exact ⟨_, rfl⟩
  · exact ⟨_, rfl⟩

theorem regexLang_ciStr {w : List Char} : ∀ {s : List Char},
    RegexLang (Regex.ciStr w) s →
      List.Forall₂ (fun p c => c = pyUpperChar p ∨ c = pyLowerChar p) w s := by
  induction w with
  | nil =>
    intro s h
    have h2 : RegexLang .eps s := h
    cases h2
    exact List.Forall₂.nil
  | cons p ps ih =>
    intro s h
    have h2 : RegexLang (.cat (.ciChar p) (Regex.ciStr ps)) s := h
    cases h2 with
    | cat h1 hrest =>
      have h3 : RegexLang (.cls (fun d => d = pyUpperChar p || d = pyLowerChar p)) _ := h1
      cases h3 with
      | cls hc =>
        refine List.Forall₂.cons ?_ (ih hrest)
        simpa using hc

theorem regexLang_rplus_head {r : Regex} {s : List Char}
    (h : RegexLang (Regex.rplus r) s) :
    ∃ s1 s2, s = s1 ++ s2 ∧ RegexLang r s1 := by
  have h2 : RegexLang (.cat r (.star r)) s := h
  cases h2 with
  | cat h1 _ => exact ⟨_, _, rfl, h1⟩

theorem regexLang_ws {s : List Char} (h : RegexLang Regex.ws s) :
    ∃ c, s = [c] ∧ isPySpace c = true := by
  have h2 : RegexLang (.cls isPySpace) s := h
  cases h2 with
  | cls hc => exact ⟨_, rfl, hc⟩

theorem eq_upper_of_not_lower {c up low : Char}
    (hor : c = up ∨ c = low) (hlow : 97 ≤ low.toNat ∧ low.toNat ≤ 122)
    (hc : ¬(97 ≤ c.toNat ∧ c.toNat ≤ 122)) : c = up := by
  rcases hor with rfl | rfl
  · rfl
  · exact absurd hlow hc

/-- A whole-string match of any safe pattern (all of which begin
`SELECT\s+…`) forces the matched text's first token to be exactly
`SELECT`, provided no character of the text is ASCII lowercase (as is the
case after uppercasing). -/
theorem regexLang_select_head {tail : Regex} {u : List Char}
    (hlang : RegexLang (.cat (.cat (.ciStr ("SELECT".data))
      (.cat (.rplus .ws) tail)) (.ropt (.rchar '\n'))) u)
    (hnl : ∀ c ∈ u, ¬(97 ≤ c.toNat ∧ c.toNat ≤ 122)) :
    firstToken u = ("SELECT".data) := by
  cases hlang with
  | cat hbody hopt =>
    cases hbody with
    | cat hsel hrest =>
      have hf := regexLang_ciStr hsel
      rw [show ("SELECT".data) = ['S', 'E', 'L', 'E', 'C', 'T'] from rfl] at hf
      simp only [List.forall₂_cons_left_iff, List.forall₂_nil_left_iff] at hf
      obtain ⟨c1, t1, hc1, ⟨c2, t2, hc2, ⟨c3, t3, hc3, ⟨c4, t4, hc4,
        ⟨c5, t5, hc5, ⟨c6, t6, hc6, rfl, rfl⟩, rfl⟩, rfl⟩, rfl⟩, rfl⟩, rfl⟩ := hf
      cases hrest with
      | cat hws htail =>
        obtain ⟨sw1, sw2, rfl, hws1⟩ := regexLang_rplus_head hws
        obtain ⟨wc, rfl, hwc⟩ := regexLang_ws hws1
        rw [show pyUpperChar 'S' = 'S' from by decide,
          show pyLowerChar 'S' = 's' from by decide] at hc1
        rw [show pyUpperChar 'E' = 'E' from by decide,
          show pyLowerChar 'E' = 'e' from by decide] at hc2 hc4
        rw [show pyUpperChar 'L' = 'L' from by decide,
          show pyLowerChar 'L' = 'l' from by decide] at hc3
        rw [show pyUpperChar 'C' = 'C' from by decide,
          show pyLowerChar 'C' = 'c' from by decide] at hc5
        rw [show pyUpperChar 'T' = 'T' from by decide,
          show pyLowerChar 'T' = 't' from by decide] at hc6
        have e1 : c1 = 'S' := eq_upper_of_not_lower hc1 (by decide)
          (hnl c1 (by simp))
        have e2 : c2 = 'E' := eq_upper_of_not_lower hc2 (by decide)
          (hnl c2 (by simp))
        have e3 : c3 = 'L' := eq_upper_of_not_lower hc3 (by decide)
          (hnl c3 (by simp))
        have e4 : c4 = 'E' := eq_upper_of_not_lower hc4 (by decide)
          (hnl c4 (by simp))
        have e5 : c5 = 'C' := eq_upper_of_not_lower hc5 (by decide)
          (hnl c5 (by simp))
        have e6 : c6 = 'T' := eq_upper_of_not_lower hc6 (by decide)
          (hnl c6 (by simp))
        subst e1 e2 e3 e4 e5 e6
        simp only [List.cons_append, List.nil_append, List.append_assoc]
        unfold firstToken
        rw [List.dropWhile_cons_of_neg (by decide)]
        rw [List.takeWhile_cons_of_pos (by decide),
          List.takeWhile_cons_of_pos (by decide),
          List.takeWhile_cons_of_pos (by decide),
          List.takeWhile_cons_of_pos (by decide),
          List.takeWhile_cons_of_pos (by decide),
          List.takeWhile_cons_of_pos (by decide),
          List.takeWhile_cons_of_neg (by simp [hwc])]

theorem firstToken_map_pyUpper (s : List Char) :
    firstToken (s.map pyUpperChar) = (firstToken s).map pyUpperChar := by
  unfold firstToken
  rw [List.dropWhile_map, List.takeWhile_map]
  have hp1 : (isPySpace ∘ pyUpperChar) = isPySpace :=
    funext fun c => isPySpace_pyUpperChar c
  have hp2 : ((fun c => !isPySpace c) ∘ pyUpperChar) = (fun c => !isPySpace c) :=
    funext fun c => by simp [Function.comp, isPySpace_pyUpperChar]
  rw [hp1, hp2]

/-- C2 — confirmed. Acceptance by `check_sql` can only come from a safe
pattern match, every safe pattern is anchored `^SELECT\s+…`, and
uppercasing commutes with tokenisation; hence any statement whose first
token (compared case-insensitively) is not `SELECT` is rejected,
whatever the rest of its content. -/
theorem check_sql_rejects_non_select (sql_query : String)
    (h : (firstToken sql_query.data).map pyUpperChar ≠ ("SELECT".data)) :
    (validate_sql_safety sql_query).1 = false := by
  cases hv : (validate_sql_safety sql_query).1
  · rfl
  · exfalso
    apply h
    rw [← firstToken_map_pyUpper]
    have hany := validate_true_any_safe hv
    rw [List.any_eq_true] at hany
    obtain ⟨r, hr, hm⟩ := hany
    obtain ⟨tail, rfl⟩ := safe_patterns_shape r hr
    have hlang := rmatchList_sound (by simpa using hm)
    refine regexLang_select_head hlang ?_
    intro c hc
    obtain ⟨x, -, rfl⟩ := List.mem_map.mp hc
    exact pyUpperChar_not_lower x

theorem check_sql_rejects_non_select_witness :
    (firstToken ("DROP TABLE products").data).map pyUpperChar ≠ ("SELECT".data) ∧
      (validate_sql_safety ("DROP TABLE products")).1 = false :=
  ⟨by decide, check_sql_rejects_non_select ("DROP TABLE products") (by decide)⟩

/-- Does the text contain `pat` as a contiguous substring? -/
def containsSub (pat : List Char) : List Char → Bool
  | [] => pat.isEmpty
  | c :: s => listStartsWith (c :: s) pat || containsSub pat s

/-- Modelled from the spec (first stage of the amended C10): double every
embedded quote. -/
def doubleQuotes : List Char → List Char
  | [] => []
  | c :: s => if c = '\'' then c :: c :: doubleQuotes s else c :: doubleQuotes s

/-- Modelled from the spec (third stage of the amended C10): delete the
non-overlapping `--` markers, scanning left to right. -/
def removeDashDash : List Char → List Char
  | [] => []
  | [c] => [c]
  | c :: d :: s =>
    if c = '-' ∧ d = '-' then removeDashDash s
    else c :: removeDashDash (d :: s)

/-- The spec-side sanitiser of the amended C10, written from the spec's
words: double every embedded quote, then delete every semicolon, then
delete the `--` comment markers. -/
def specSanitize (value : String) : String :=
  String.mk (removeDashDash ((doubleQuotes value.data).filter (fun c => c != ';')))

/-- The text contains the two-character marker `--`. -/
def hasDashDash : List Char → Bool
  | [] => false
  | [_] => false
  | c :: d :: s => (c = '-' && d = '-') || hasDashDash (d :: s)

theorem pyReplaceAux_quote : ∀ (fuel : Nat) (s : List Char), s.length ≤ fuel →
    pyReplaceAux ("'".data) ("''".data) fuel s = doubleQuotes s := by
  intro fuel
  induction fuel with
  | zero =>
    intro s hs
    cases s with
    | nil => rfl
    | cons c s => exact absurd hs (by simp)
  | succ n ih =>
    intro s hs
    cases s with
    | nil => rfl
    | cons c s =>
      simp only [pyReplaceAux, doubleQuotes]
      by_cases hc : c = '\''
      · subst hc
        rw [if_pos (by simp [listStartsWith])]
        simp [ih s (by simpa using Nat.le_of_succ_le_succ hs)]
      · rw [if_neg (by simp [listStartsWith, hc]), if_neg hc,
          ih s (by simpa using Nat.le_of_succ_le_succ hs)]

theorem pyReplaceAux_semicolon : ∀ (fuel : Nat) (s : List Char), s.length ≤ fuel →
    pyReplaceAux (";".data) [] fuel s = s.filter (fun c => c != ';') := by
  intro fuel
  induction fuel with
  | zero =>
    intro s hs
    cases s with
    | nil => rfl
    | cons c s => exact absurd hs (by simp)
  | succ n ih =>
    intro s hs
    cases s with
    | nil => rfl
    | cons c s =>
      simp only [pyReplaceAux, List.filter_cons]
      by_cases hc : c = ';'
      · subst hc
        rw [if_pos (by simp [listStartsWith])]
        simp [ih s (by simpa using Nat.le_of_succ_le_succ hs)]
      · rw [if_neg (by simp [listStartsWith, hc]),
          ih s (by simpa using Nat.le_of_succ_le_succ hs)]
        simp [hc]

theorem pyReplaceAux_dashdash : ∀ (fuel : Nat) (s : List Char), s.length ≤ fuel →
    pyReplaceAux ("--".data) [] fuel s = removeDashDash s := by
  intro fuel
  induction fuel with
  | zero =>
    intro s hs
    cases s with
    | nil => rfl
    | cons c s => exact absurd hs (by simp)
  | succ n ih =>
    intro s hs
    cases s with
    | nil => rfl
    | cons c s =>
      cases s with
      | nil =>
        simp only [pyReplaceAux, removeDashDash]
        rw [if_neg (by simp [listStartsWith])]
      | cons d s' =>
        simp only [pyReplaceAux, removeDashDash]
        by_cases hcd : c = '-' ∧ d = '-'
        · obtain ⟨rfl, rfl⟩ := hcd
          rw [if_pos (by simp [listStartsWith]), if_pos ⟨rfl, rfl⟩]
          simpa using ih s' (by simp at hs; omega)
        · rw [if_neg (by simp [listStartsWith]; tauto), if_neg hcd,
            ih (d :: s') (by simp at hs ⊢; omega)]

theorem removeDashDash_cons_ne {d : Char} (hd : ¬ d = '-') (s : List Char) :
    ∃ Y, removeDashDash (d :: s) = d :: Y := by
  cases s with
  | nil => exact ⟨[], rfl⟩
  | cons s0 rest =>
    simp only [removeDashDash]
    rw [if_neg (fun h => hd h.1)]
    exact ⟨_, rfl⟩

theorem hasDashDash_cons_of_ne {c : Char} {X : List Char} (hc : ¬ c = '-')
    (hX : hasDashDash X = false) : hasDashDash (c :: X) = false := by
  cases X with
  | nil => rfl
  | cons e Y =>
    simp only [hasDashDash, Bool.or_eq_false_iff]
    exact ⟨by simp [hc], hX⟩

theorem hasDashDash_removeDashDash : ∀ s : List Char,
    hasDashDash (removeDashDash s) = false := by
  intro s
  induction s using removeDashDash.induct with
  | case1 => rfl
  | case2 c => rfl
  | case3 c d s hcd ih =>
    simp only [removeDashDash, if_pos hcd]
    exact ih
  | case4 c d s hcd ih =>
    simp only [removeDashDash, if_neg hcd]
    by_cases hc : c = '-'
    · subst hc
      have hd : ¬ d = '-' := fun h => hcd ⟨rfl, h⟩
      obtain ⟨Y, hY⟩ := removeDashDash_cons_ne hd s
      rw [hY]
      simp only [hasDashDash, Bool.or_eq_false_iff]
      refine ⟨by simp [hd], ?_⟩
      rw [← hY]
      exact ih
    · exact hasDashDash_cons_of_ne hc ih

theorem mem_removeDashDash : ∀ (s : List Char) (c : Char),
    c ∈ removeDashDash s → c ∈ s := by
  intro s
  induction s using removeDashDash.induct with
  | case1 => intro c hc; exact absurd hc (by simp [removeDashDash])
  | case2 e => intro c hc; simpa [removeDashDash] using hc
  | case3 e d s hcd ih =>
    intro c hc
    rw [removeDashDash, if_pos hcd] at hc
    exact List.mem_cons_of_mem _ (List.mem_cons_of_mem _ (ih c hc))
  | case4 e d s hcd ih =>
    intro c hc
    rw [removeDashDash, if_neg hcd] at hc
    rcases List.mem_cons.mp hc with rfl | hc
    · exact List.mem_cons_self _ _
    · exact List.mem_cons_of_mem _ (ih c hc)

theorem count_removeDashDash {q : Char} (hq : ¬ q = '-') : ∀ s : List Char,
    (removeDashDash s).count q = s.count q := by
  intro s
  induction s using removeDashDash.induct with
  | case1 => rfl
  | case2 c => rfl
  | case3 c d s hcd ih =>
    obtain ⟨rfl, rfl⟩ := hcd
    rw [removeDashDash, if_pos ⟨rfl, rfl⟩, ih]
    simp [List.count_cons, hq]
  | case4 c d s hcd ih =>
    rw [removeDashDash, if_neg hcd]
    simp [List.count_cons, ih]

theorem count_doubleQuotes : ∀ s : List Char,
    (doubleQuotes s).count '\'' = 2 * s.count '\'' := by
  intro s
  induction s with
  | nil => rfl
  | cons c s ih =>
    simp only [doubleQuotes]
    by_cases hc : c = '\''
    · subst hc
      rw [if_pos rfl]
      simp [List.count_cons, ih]
      omega
    · rw [if_neg hc]
      simp [List.count_cons, ih, hc]

theorem count_filter_semi : ∀ s : List Char,
    (s.filter (fun c => c != ';')).count '\'' = s.count '\'' := by
  intro s
  induction s with
  | nil => rfl
  | cons c s ih =>
    rw [List.filter_cons]
    by_cases hc : c = ';'
    · subst hc
      simp [List.count_cons, ih]
    · simp [List.count_cons, ih, hc]

/-- C10 — counterexample to the claim as stated. The spec's comment
markers are `--`, `/*` and `*/` (§4.2 step 4), but `sanitize` strips only
`--`: on `/* x */` the output still contains the block-comment markers
unchanged. -/
theorem sanitize_keeps_block_comment_markers :
    sanitize_input ("/* x */") = "/* x */" ∧
      containsSub ("/*".data) (sanitize_input ("/* x */")).data = true ∧
      containsSub ("*/".data) (sanitize_input ("/* x */")).data = true :=
  ⟨by decide, by decide, by decide⟩

/-- C10 amended: `sanitize` doubles every embedded quote, removes every
semicolon and removes the `--` comment markers (block-comment markers are
not stripped), with no other change: it equals the spec-side staged
sanitiser, its output contains no semicolon and no `--`, and the quote
count exactly doubles. The removals are sequential, so a `--` assembled
by deleting a semicolon between two dashes is itself removed. -/
theorem sanitize_refines_spec (value : String) :
    sanitize_input value = specSanitize value ∧
      (';' ∉ (sanitize_input value).data) ∧
      hasDashDash (sanitize_input value).data = false ∧
      (sanitize_input value).data.count '\'' = 2 * value.data.count '\'' := by
  have heq : sanitize_input value = specSanitize value := by
    unfold sanitize_input specSanitize pyReplace
    rw [pyReplaceAux_quote _ _ (Nat.le_refl _),
      pyReplaceAux_semicolon _ _ (Nat.le_refl _),
      pyReplaceAux_dashdash _ _ (Nat.le_refl _)]
  refine ⟨heq, ?_, ?_, ?_⟩
  · rw [heq]
    intro hmem
    have h2 := mem_removeDashDash _ _ hmem
    have h3 := (List.mem_filter.mp h2).2
    simp at h3
  · rw [heq]
    exact hasDashDash_removeDashDash _
  · rw [heq]
    unfold specSanitize
    show (removeDashDash _).count '\'' = _
    rw [count_removeDashDash (by decide), count_filter_semi, count_doubleQuotes]

end Text2SQLAgent
